import Mathlib

/-!
Shallow embedding of the ai-marketing-campaign frontend
(`src/frontend/src/context/ApiContext.tsx`, `src/frontend/src/app/page.tsx`,
the login page, and the signup page), together with theorems about the
behaviour of its handlers and derived values.

JavaScript values are modelled as follows: `string | null | undefined`
becomes `Option String` (both nullish values collapse to `none`), numbers
that are used as integers become `Int`, `File` objects become a record of
name and byte size, `FormData` becomes a list of named parts, and
`localStorage` becomes an association list from keys to stored strings.
JavaScript truthiness on strings (`null`, `undefined` and `""` are falsy)
is expanded at each use site.
-/

/-- Model of `String.prototype.trim`: drops whitespace at both ends. -/
def jsTrim (s : String) : String :=
  String.mk (((s.data.dropWhile Char.isWhitespace).reverse.dropWhile Char.isWhitespace).reverse)

/-- Helper for `strStartsWith`: does the first character list lead the second? -/
def charsLeadWith : List Char → List Char → Bool
  | [], _ => true
  | _ :: _, [] => false
  | p :: ps, c :: cs => p == c && charsLeadWith ps cs

/-- Model of `String.prototype.startsWith`: `strStartsWith s pre` is true
when `s` begins with `pre`. -/
def strStartsWith (s pre : String) : Bool :=
  charsLeadWith pre.data s.data

/-- Value of the accumulated decimal digits of a character list. -/
def digitsVal (cs : List Char) : Nat :=
  cs.foldl (fun a c => a * 10 + (c.toNat - 48)) 0

/-- Model of JavaScript `parseInt` on base-10 numerals: skip leading
whitespace, read an optional sign and then the longest run of decimal
digits; `none` models the `NaN` result when no digit is found. -/
def jsParseInt (s : String) : Option Int :=
  let cs := s.data.dropWhile Char.isWhitespace
  let signAndRest : Int × List Char :=
    match cs with
    | '-' :: rest => (-1, rest)
    | '+' :: rest => (1, rest)
    | rest => (1, rest)
  let ds := signAndRest.2.takeWhile Char.isDigit
  if ds.isEmpty then none else some (signAndRest.1 * (digitsVal ds : Int))

/-- Key under which the auth token is persisted
(`TOKEN_STORAGE_KEY` in `ApiContext.tsx`, line 7). -/
def TOKEN_STORAGE_KEY : String := "ai-campaign-token"

/-- The browser `localStorage`, modelled as an association list from keys
to stored strings. -/
abbrev LocalStorage := List (String × String)

/-- Model of `localStorage.getItem`: the value stored under `k`, or `none`
when the key is absent (JavaScript `null`). -/
def lsGet (s : LocalStorage) (k : String) : Option String :=
  (List.find? (fun e => e.1 == k) s).map (fun e => e.2)

/-- Model of `localStorage.setItem`: stores `v` under `k`, replacing any
previous binding. -/
def lsSet (s : LocalStorage) (k v : String) : LocalStorage :=
  (k, v) :: List.filter (fun e => e.1 != k) s

/-- Model of `localStorage.removeItem`: drops any binding of `k`. -/
def lsRemove (s : LocalStorage) (k : String) : LocalStorage :=
  List.filter (fun e => e.1 != k) s

/-- The `login` callback of `ApiProvider` (`ApiContext.tsx`, line 52):
the auth-token state it establishes. -/
def login (token : String) : Option String := some token

/-- The `logout` callback of `ApiProvider` (`ApiContext.tsx`, line 53):
the auth-token state it establishes. -/
def logout : Option String := none

/-- Storage half of the sync effect of `ApiProvider` (`ApiContext.tsx`,
lines 38-50): when `authToken` is truthy the token is written under
`TOKEN_STORAGE_KEY`, otherwise the key is removed.  The `some ""` case
follows the `else` branch because the empty string is falsy. -/
def syncStorage : Option String → LocalStorage → LocalStorage
  | some t, s => if t = "" then lsRemove s TOKEN_STORAGE_KEY else lsSet s TOKEN_STORAGE_KEY t
  | none, s => lsRemove s TOKEN_STORAGE_KEY

/-- Header half of the sync effect of `ApiProvider` (`ApiContext.tsx`,
lines 38-50): the `Authorization` default header of the shared axios
instance after the effect ran, given the auth token and the previous
default.  A truthy token sets `Bearer <token>`; otherwise the default is
deleted. -/
def syncAuthHeader : Option String → Option String → Option String
  | some t, _ => if t = "" then none else some ("Bearer " ++ t)
  | none, _ => none

/-- The hydration effect of `ApiProvider` (`ApiContext.tsx`, lines 29-35):
on a fresh mount `authToken` starts as `none` and is set to the stored
token only when `getItem` returns a truthy string. -/
def hydrateAuthToken (s : LocalStorage) : Option String :=
  match lsGet s TOKEN_STORAGE_KEY with
  | some t => if t = "" then none else some t
  | none => none

/-- An outgoing HTTP request as far as the claims are concerned: method,
URL, and the `Authorization` and `Content-Type` headers it carries. -/
structure HttpRequest where
  method : String
  url : String
  authorization : Option String
  contentType : Option String
deriving DecidableEq

/-- Base URL hard-coded in the login and signup pages. -/
def AUTH_API_URL : String := "http://127.0.0.1:8000"

/-- The request sent by `LoginPage.handleSubmit` (part_002, lines 43-49):
a POST through plain `axios` to `/token/` with a url-encoded form body;
no `Authorization` header is set. -/
def loginRequest : HttpRequest × List (String × String) :=
  ({ method := "POST", url := AUTH_API_URL ++ "/token/",
     authorization := none,
     contentType := some "application/x-www-form-urlencoded" },
   [])

/-- The form body of the login request (part_002, lines 43-45). -/
def loginRequestBody (email password : String) : List (String × String) :=
  [("username", email), ("password", password)]

/-- The request sent by `SignupPage.handleSubmit` (part_000, lines 43-46):
a POST through plain `axios` to `/users/` with a JSON body; no
`Authorization` header is set. -/
def signupRequest : HttpRequest :=
  { method := "POST", url := AUTH_API_URL ++ "/users/",
    authorization := none, contentType := none }

/-- A request issued through the shared `api` axios instance: its
`Authorization` header is the instance's current default, which is
whatever the sync effect last established for the given auth token. -/
def apiRequest (authToken : Option String) (meth url : String) : HttpRequest :=
  { method := meth, url := url,
    authorization := syncAuthHeader authToken none,
    contentType := none }

/-- The `resolveAssetUrl` helper (`page.tsx`, lines 104-107), with the
`NEXT_PUBLIC_API_URL` environment value passed explicitly.  A falsy path
(`none` or the empty string) yields `""`; a path starting with `"http"` is
returned unchanged; any other path is appended to the API base URL. -/
def resolveAssetUrl (apiUrl : String) (path : Option String) : String :=
  match path with
  | none => ""
  | some p => if p = "" then "" else if strStartsWith p "http" then p else apiUrl ++ p

/-- A browser `File`, reduced to the attributes the dashboard reads. -/
structure JsFile where
  name : String
  size : Nat
deriving DecidableEq

/-- Result of the product-image `onChange` handler: the `productImage`
state it establishes and whether it reset the file input's value. -/
structure ImageInputResult where
  productImage : Option JsFile
  inputCleared : Bool
deriving DecidableEq

/-- The product-image input `onChange` handler (`page.tsx`, lines
523-537): a file over `10 * 1024 * 1024` bytes is rejected (state cleared
and input reset); any other chosen file is stored; no file clears the
state. -/
def onProductImageChange : Option JsFile → ImageInputResult
  | some f =>
    if f.size > 10 * 1024 * 1024 then { productImage := none, inputCleared := true }
    else { productImage := some f, inputCleared := false }
  | none => { productImage := none, inputCleared := false }

/-- One part of a multipart `FormData` body: a text field or a file
field. -/
inductive FormPart where
  | text : String → String → FormPart
  | file : String → JsFile → FormPart
deriving DecidableEq

/-- The name under which a part was appended. -/
def FormPart.fieldName : FormPart → String
  | .text n _ => n
  | .file n _ => n

/-- Whether the body contains a part with the given field name. -/
def hasField (parts : List FormPart) (n : String) : Bool :=
  parts.any (fun p => p.fieldName == n)

/-- The value of the first text part with the given field name. -/
def getTextField (parts : List FormPart) (n : String) : Option String :=
  match List.find? (fun p => p.fieldName == n) parts with
  | some (.text _ v) => some v
  | _ => none

/-- The `FormData` built by `DashboardPage.handleSubmit` (`page.tsx`,
lines 313-322): `product_url` always, `product_name` only when the
trimmed name is truthy (and then the trimmed value), `product_image` only
when a file is in state, then `enable_ab_testing` and `num_variations`
rendered as strings. -/
def campaignFormData (url productName : String) (productImage : Option JsFile)
    (enableABTesting : Bool) (numVariations : Int) : List FormPart :=
  [FormPart.text "product_url" url]
    ++ (if jsTrim productName = "" then []
        else [FormPart.text "product_name" (jsTrim productName)])
    ++ (match productImage with
        | some f => [FormPart.file "product_image" f]
        | none => [])
    ++ [FormPart.text "enable_ab_testing" (toString enableABTesting),
        FormPart.text "num_variations" (toString numVariations)]

/-- The `onChange` handler of the variation-count input (`page.tsx`, line
592): `parseInt(e.target.value) || 2`, i.e. the parsed value, falling back
to `2` when parsing yields `NaN` or `0` (both falsy). -/
def numVariationsOnChange (entered : String) : Int :=
  match jsParseInt entered with
  | none => 2
  | some n => if n = 0 then 2 else n

/-- The `min` attribute declared on the variation-count input
(`page.tsx`, line 589). -/
def numVariationsFieldMin : Int := 2

/-- The `max` attribute declared on the variation-count input
(`page.tsx`, line 590). -/
def numVariationsFieldMax : Int := 3

/-- Body of the POST issued by `handleRegenerateImage` (`page.tsx`, lines
274-278): exactly the fields `campaign_id`, `platform` and
`variation_number`. -/
structure RegeneratePayload where
  campaign_id : Int
  platform : String
  variation_number : Int
deriving DecidableEq

/-- The regenerate call: target URL plus its JSON body. -/
structure RegenerateRequest where
  url : String
  payload : RegeneratePayload
deriving DecidableEq

/-- The `handleRegenerateImage` handler (`page.tsx`, lines 271-287): posts
to `/api/v1/assets/regenerate` with the three-field body. -/
def handleRegenerateImage (campaignId : Int) (platform : String)
    (variationNumber : Int) : RegenerateRequest :=
  { url := "/api/v1/assets/regenerate",
    payload := { campaign_id := campaignId, platform := platform,
                 variation_number := variationNumber } }

/-- A call of `handleRegenerateImage` that omits the variation argument:
the parameter declares the default value `0` (`page.tsx`, line 271). -/
def handleRegenerateImageDefault (campaignId : Int) (platform : String) : RegenerateRequest :=
  handleRegenerateImage campaignId platform 0

/-- The main-image Regenerate button (`page.tsx`, line 817) always calls
`handleRegenerateImage` with variation `0`. -/
def mainImageRegenerate (campaignId : Int) (platform : String) : RegenerateRequest :=
  handleRegenerateImage campaignId platform 0

/-- The `GeneratedText` record type of `page.tsx` (lines 43-50). -/
structure GeneratedText where
  id : Int
  platform : String
  caption : String
  persuasiveness_score : Option Float
  clarity_score : Option Float
  feedback : Option String

/-- The `GeneratedImage` record type of `page.tsx` (lines 52-62). -/
structure GeneratedImage where
  id : Int
  platform : String
  image_url : String
  image_prompt : String
  original_image_url : Option String := none
  variation_number : Option Int := none
  is_selected : Option Bool := none
  tags : Option (List String) := none
  collection : Option String := none
deriving DecidableEq

/-- The `CampaignDetails` record type of `page.tsx` (lines 64-71). -/
structure CampaignDetails where
  id : Int
  product_name : String
  product_url : String
  created_at : String
  texts : List GeneratedText
  images : List GeneratedImage

/-- The `CampaignSummary` record type of `page.tsx` (lines 73-79). -/
structure CampaignSummary where
  id : Int
  product_name : String
  product_url : String
  created_at : String
  preview_image_url : Option String := none
deriving DecidableEq

/-- The derived `stats` value of `DashboardPage` (`page.tsx`, lines
163-172). -/
structure DashboardStats where
  totalCampaigns : Nat
  totalImages : Nat
  lastRun : Option String

/-- The `stats` memo (`page.tsx`, lines 163-172): campaign count, image
count of the active campaign (`0` when none), and the `created_at` of the
first summary (`none` when the list is empty). -/
def dashboardStats (campaigns : List CampaignSummary)
    (activeCampaign : Option CampaignDetails) : DashboardStats :=
  { totalCampaigns := campaigns.length,
    totalImages :=
      match activeCampaign with
      | some c => c.images.length
      | none => 0,
    lastRun := campaigns.head?.map (fun c => c.created_at) }

/-- The `formatTime` helper (`page.tsx`, lines 87-95).  The surrounding
JavaScript `Date` machinery is passed in as `localeTimeOf`, which returns
the locale-rendered time of day or `none` when the date parses to `NaN`.
A falsy value (`none` or `""`) renders as `"No campaigns yet"`. -/
def formatTime (localeTimeOf : String → Option String) (value : Option String) : String :=
  match value with
  | none => "No campaigns yet"
  | some v =>
    if v = "" then "No campaigns yet"
    else
      match localeTimeOf v with
      | none => "—"
      | some t => t

/-- The `findImage` helper (`page.tsx`, lines 174-178): the first image of
the active campaign whose platform matches and whose
`variation_number ?? 0` equals the requested variation. -/
def findImage (activeCampaign : Option CampaignDetails) (platform : String)
    (variationNumber : Int) : Option GeneratedImage :=
  match activeCampaign with
  | some c =>
    List.find? (fun img =>
      img.platform == platform && img.variation_number.getD 0 == variationNumber) c.images
  | none => none

/-- The `isMain` test of the A/B variation card (`page.tsx`, line 684):
`(img.variation_number ?? 0) === 0`. -/
def isMainImage (img : GeneratedImage) : Bool :=
  img.variation_number.getD 0 == 0

/-- Rendering of a possibly-null number inside a template literal:
JavaScript prints `null` for the null value. -/
def jsNumberOrNull : Option Int → String
  | some n => toString n
  | none => "null"

/-- The label of an A/B variation card (`page.tsx`, line 701): `"Main"`
for the primary variation, otherwise `"Variation <n>"`. -/
def variationLabel (img : GeneratedImage) : String :=
  if isMainImage img then "Main" else "Variation " ++ jsNumberOrNull img.variation_number

/-- The dashboard state touched by campaign deletion. -/
structure DashboardState where
  campaigns : List CampaignSummary
  activeCampaign : Option CampaignDetails

/-- Model of `activeCampaign?.id === campaignId` (`page.tsx`, line 249):
optional chaining on `null` yields `undefined`, which is not strictly
equal to any number. -/
def activeIdEquals (active : Option CampaignDetails) (campaignId : Int) : Bool :=
  match active with
  | some c => c.id == campaignId
  | none => false

/-- The `handleDeleteCampaign` handler (`page.tsx`, lines 241-260), with
the confirmation dialog's answer and the delete call's outcome passed in.
On a declined confirmation or a failed call the state is untouched and the
handler returns `false`; on success the campaign is filtered out of the
list, the active campaign is cleared when it was the deleted one, and the
handler returns `true`. -/
def handleDeleteCampaign (confirmed deleteSucceeds : Bool) (campaignId : Int)
    (s : DashboardState) : DashboardState × Bool :=
  if !confirmed then (s, false)
  else if deleteSucceeds then
    ({ campaigns := List.filter (fun c => c.id != campaignId) s.campaigns,
       activeCampaign :=
         if activeIdEquals s.activeCampaign campaignId then none
         else s.activeCampaign },
     true)
  else (s, false)

/-- Sample campaign summary used as concrete input in witnesses. -/
def sampleSummaryA : CampaignSummary :=
  { id := 1, product_name := "A", product_url := "https://example.com/widget",
    created_at := "2024-01-02T10:00:00" }

/-- Second sample campaign summary, created earlier than `sampleSummaryA`. -/
def sampleSummaryB : CampaignSummary :=
  { id := 2, product_name := "B", product_url := "https://example.com/gadget",
    created_at := "2024-01-01T09:00:00" }

/-- Sample primary generated image (no explicit variation number). -/
def sampleImage0 : GeneratedImage :=
  { id := 3, platform := "Instagram", image_url := "/static/images/a0.png",
    image_prompt := "p0" }

/-- Sample A/B variation image with variation number 1. -/
def sampleImage1 : GeneratedImage :=
  { id := 5, platform := "Instagram", image_url := "/static/images/a1.png",
    image_prompt := "p1", variation_number := some 1 }

/-- Sample active campaign owning the two sample images. -/
def sampleCampaign : CampaignDetails :=
  { id := 1, product_name := "A", product_url := "https://example.com/widget",
    created_at := "2024-01-02T10:00:00", texts := [],
    images := [sampleImage0, sampleImage1] }

/-- Sample dashboard state: both summaries loaded, campaign 1 active. -/
def sampleDashboard : DashboardState :=
  { campaigns := [sampleSummaryA, sampleSummaryB],
    activeCampaign := some sampleCampaign }

/-! Helper lemmas about the local-storage model. -/

/-- Finding a key among entries filtered to exclude that key yields nothing. -/
theorem find?_filter_ne_key (s : LocalStorage) (k : String) :
    List.find? (fun e => e.1 == k) (List.filter (fun e => e.1 != k) s) = none := by
  rw [List.find?_eq_none]
  intro x hx
  have hne := (List.mem_filter.mp hx).2
  simp only [bne_iff_ne, ne_eq] at hne
  simp [hne]

/-- Looking up a key just removed from local storage yields nothing. -/
theorem lsGet_lsRemove (s : LocalStorage) (k : String) : lsGet (lsRemove s k) k = none := by
  unfold lsGet lsRemove
  rw [find?_filter_ne_key]
  rfl

/-- Looking up a key just stored yields the stored value. -/
theorem lsGet_lsSet (s : LocalStorage) (k v : String) : lsGet (lsSet s k v) k = some v := by
  simp [lsGet, lsSet]

/-- C2: resolveAssetUrl returns the empty string on a nullish or empty
path, returns a path starting with "http" unchanged, and otherwise
returns the API base URL concatenated with the path. -/
theorem C2_resolve_asset_url (apiUrl : String) (path : Option String) :
    (path = none → resolveAssetUrl apiUrl path = "") ∧
    (path = some "" → resolveAssetUrl apiUrl path = "") ∧
    (∀ p, path = some p → p ≠ "" → strStartsWith p "http" = true →
      resolveAssetUrl apiUrl path = p) ∧
    (∀ p, path = some p → p ≠ "" → strStartsWith p "http" = false →
      resolveAssetUrl apiUrl path = apiUrl ++ p) := by
  refine ⟨?_, ?_, ?_, ?_⟩
  · rintro rfl; rfl
  · rintro rfl; rfl
  · rintro p rfl hne hs
    simp [resolveAssetUrl, hne, hs]
  · rintro p rfl hne hs
    simp [resolveAssetUrl, hne, hs]

/-- C2 witness: a relative proxy path is resolved against the API base
URL, and an absolute storage URL is returned unchanged. -/
theorem C2_resolve_asset_url_witness :
    resolveAssetUrl "http://127.0.0.1:8000" (some "/static/images/a.png")
        = "http://127.0.0.1:8000" ++ "/static/images/a.png" ∧
    resolveAssetUrl "http://127.0.0.1:8000" (some "https://cdn.example.com/a.png")
        = "https://cdn.example.com/a.png" :=
  ⟨(C2_resolve_asset_url "http://127.0.0.1:8000" (some "/static/images/a.png")).2.2.2
      "/static/images/a.png" rfl (by decide) (by decide),
   (C2_resolve_asset_url "http://127.0.0.1:8000" (some "https://cdn.example.com/a.png")).2.2.1
      "https://cdn.example.com/a.png" rfl (by decide) (by decide)⟩

/-- C6: handleRegenerateImage posts to /api/v1/assets/regenerate with a
body of exactly campaign_id, platform and variation_number; omitting the
variation argument uses the declared default 0, and the main-image
Regenerate button always passes variation 0. -/
theorem C6_regenerate_request (c : Int) (p : String) (v : Int) :
    (handleRegenerateImage c p v).url = "/api/v1/assets/regenerate" ∧
    (handleRegenerateImage c p v).payload.campaign_id = c ∧
    (handleRegenerateImage c p v).payload.platform = p ∧
    (handleRegenerateImage c p v).payload.variation_number = v ∧
    handleRegenerateImageDefault c p = handleRegenerateImage c p 0 ∧
    mainImageRegenerate c p = handleRegenerateImage c p 0 :=
  ⟨rfl, rfl, rfl, rfl, rfl, rfl⟩

/-- C1 (amended): while authToken is a non-null, non-empty token t, the
shared api instance's Authorization default is Bearer t and every request
through it carries that header; when authToken is null the default is
absent; the login and signup requests go through plain axios and carry no
Authorization header. -/
theorem C1_bearer_header (t : String) (ht : t ≠ "") (prev : Option String)
    (meth url : String) :
    syncAuthHeader (some t) prev = some ("Bearer " ++ t) ∧
    syncAuthHeader none prev = none ∧
    (apiRequest (some t) meth url).authorization = some ("Bearer " ++ t) ∧
    (apiRequest none meth url).authorization = none ∧
    loginRequest.1.authorization = none ∧
    signupRequest.authorization = none := by
  refine ⟨?_, rfl, ?_, rfl, rfl, rfl⟩
  · simp [syncAuthHeader, ht]
  · simp [apiRequest, syncAuthHeader, ht]

/-- C1 counterexample: the empty-string token is non-null, yet the sync
effect deletes the Authorization default instead of setting Bearer
followed by the token, so a request issued in that state carries no
Authorization header. -/
theorem C1_bearer_header_cex :
    (some "" : Option String) ≠ none ∧
    syncAuthHeader (some "") none = none ∧
    (apiRequest (some "") "GET" "/api/v1/campaigns/").authorization
        ≠ some ("Bearer " ++ "") := by
  refine ⟨by decide, rfl, by decide⟩

/-- C1 witness: the amended statement evaluated at the token "tok0". -/
theorem C1_bearer_header_witness :
    ("tok0" : String) ≠ "" ∧
    (syncAuthHeader (some "tok0") none = some ("Bearer " ++ "tok0") ∧
     syncAuthHeader none none = none ∧
     (apiRequest (some "tok0") "GET" "/api/v1/campaigns/").authorization
         = some ("Bearer " ++ "tok0") ∧
     (apiRequest none "GET" "/api/v1/campaigns/").authorization = none ∧
     loginRequest.1.authorization = none ∧
     signupRequest.authorization = none) :=
  ⟨by decide, C1_bearer_header "tok0" (by decide) none "GET" "/api/v1/campaigns/"⟩

/-- C10 (amended): for a non-empty token t, after login(t) and the sync
effect the token is stored under ai-campaign-token and a fresh mount
hydrates authToken back to t; after logout() and the sync effect the key
is absent and a fresh mount hydrates to none. -/
theorem C10_token_roundtrip (t : String) (ht : t ≠ "") (storage : LocalStorage) :
    lsGet (syncStorage (login t) storage) TOKEN_STORAGE_KEY = some t ∧
    hydrateAuthToken (syncStorage (login t) storage) = some t ∧
    lsGet (syncStorage logout storage) TOKEN_STORAGE_KEY = none ∧
    hydrateAuthToken (syncStorage logout storage) = none := by
  have hset : lsGet (syncStorage (login t) storage) TOKEN_STORAGE_KEY = some t := by
    simp only [login, syncStorage, if_neg ht]
    exact lsGet_lsSet storage TOKEN_STORAGE_KEY t
  have hrem : lsGet (syncStorage logout storage) TOKEN_STORAGE_KEY = none := by
    simp only [logout, syncStorage]
    exact lsGet_lsRemove storage TOKEN_STORAGE_KEY
  refine ⟨hset, ?_, hrem, ?_⟩
  · rw [hydrateAuthToken, hset]
    simp [ht]
  · rw [hydrateAuthToken, hrem]

/-- C10 counterexample: login with the empty-string token removes the
stored key, so nothing is stored and a fresh mount hydrates to none
rather than back to the token. -/
theorem C10_token_roundtrip_cex :
    login "" = some "" ∧
    lsGet (syncStorage (login "") []) TOKEN_STORAGE_KEY ≠ some "" ∧
    hydrateAuthToken (syncStorage (login "") []) = none := by
  refine ⟨rfl, by decide, by decide⟩

/-- C10 witness: the amended round trip evaluated at the token "tok1"
starting from empty storage. -/
theorem C10_token_roundtrip_witness :
    ("tok1" : String) ≠ "" ∧
    (lsGet (syncStorage (login "tok1") []) TOKEN_STORAGE_KEY = some "tok1" ∧
     hydrateAuthToken (syncStorage (login "tok1") []) = some "tok1" ∧
     lsGet (syncStorage logout []) TOKEN_STORAGE_KEY = none ∧
     hydrateAuthToken (syncStorage logout []) = none) :=
  ⟨by decide, C10_token_roundtrip "tok1" (by decide) []⟩

/-! Helper lemmas about the create-campaign form body. -/

/-- Without a product image in state, no product_image part is appended. -/
theorem hasField_product_image_none (url productName : String) (ab : Bool) (nv : Int) :
    hasField (campaignFormData url productName none ab nv) "product_image" = false := by
  unfold campaignFormData hasField
  split <;> simp [FormPart.fieldName]

/-- With a product image in state, a product_image part is appended. -/
theorem hasField_product_image_some (url productName : String) (f : JsFile)
    (ab : Bool) (nv : Int) :
    hasField (campaignFormData url productName (some f) ab nv) "product_image" = true := by
  unfold campaignFormData hasField
  split <;> simp [FormPart.fieldName]

/-- The num_variations part always carries the decimal rendering of the
current numVariations state. -/
theorem getTextField_num_variations (url productName : String) (pi : Option JsFile)
    (ab : Bool) (nv : Int) :
    getTextField (campaignFormData url productName pi ab nv) "num_variations"
      = some (toString nv) := by
  unfold campaignFormData
  rcases pi with _ | f <;> by_cases h : jsTrim productName = "" <;>
    simp [h, getTextField, FormPart.fieldName, List.find?]

/-- C3: a chosen product image over 10 MiB is rejected — the state is
cleared, the file input is reset, and the subsequent create-campaign body
has no product_image part; a chosen file of at most 10 MiB is accepted,
kept in state, and the body carries a product_image part. -/
theorem C3_image_size_limit (f : JsFile) (url productName : String)
    (ab : Bool) (nv : Int) :
    (f.size > 10 * 1024 * 1024 →
      onProductImageChange (some f) = { productImage := none, inputCleared := true } ∧
      hasField
        (campaignFormData url productName (onProductImageChange (some f)).productImage ab nv)
        "product_image" = false) ∧
    (f.size ≤ 10 * 1024 * 1024 →
      onProductImageChange (some f) = { productImage := some f, inputCleared := false } ∧
      hasField
        (campaignFormData url productName (onProductImageChange (some f)).productImage ab nv)
        "product_image" = true) := by
  constructor
  · intro h
    have he : onProductImageChange (some f) = { productImage := none, inputCleared := true } := by
      simp [onProductImageChange, h]
    rw [he]
    exact ⟨rfl, hasField_product_image_none url productName ab nv⟩
  · intro h
    have he : onProductImageChange (some f) = { productImage := some f, inputCleared := false } := by
      simp [onProductImageChange, Nat.not_lt.mpr h]
    rw [he]
    exact ⟨rfl, hasField_product_image_some url productName f ab nv⟩

/-- C3 witness: a file one byte over the limit is rejected and omitted; a
small file is accepted and attached. -/
theorem C3_image_size_limit_witness :
    (onProductImageChange (some ⟨"big.png", 10 * 1024 * 1024 + 1⟩)
        = { productImage := none, inputCleared := true } ∧
      hasField
        (campaignFormData "u" ""
          (onProductImageChange (some ⟨"big.png", 10 * 1024 * 1024 + 1⟩)).productImage
          false 2)
        "product_image" = false) ∧
    (onProductImageChange (some ⟨"ok.png", 2048⟩)
        = { productImage := some ⟨"ok.png", 2048⟩, inputCleared := false } ∧
      hasField
        (campaignFormData "u" ""
          (onProductImageChange (some ⟨"ok.png", 2048⟩)).productImage
          false 2)
        "product_image" = true) :=
  ⟨(C3_image_size_limit ⟨"big.png", 10 * 1024 * 1024 + 1⟩ "u" "" false 2).1 (by decide),
   (C3_image_size_limit ⟨"ok.png", 2048⟩ "u" "" false 2).2 (by decide)⟩

/-- C5: the create-campaign body carries a product_name field exactly when
the product name is non-empty after trimming, and then the value sent is
the trimmed name. -/
theorem C5_product_name_field (url productName : String) (pi : Option JsFile)
    (ab : Bool) (nv : Int) :
    (jsTrim productName ≠ "" →
      getTextField (campaignFormData url productName pi ab nv) "product_name"
        = some (jsTrim productName)) ∧
    (jsTrim productName = "" →
      hasField (campaignFormData url productName pi ab nv) "product_name" = false) := by
  constructor
  · intro h
    unfold campaignFormData getTextField
    cases pi <;> simp [FormPart.fieldName, h, List.find?]
  · intro h
    unfold campaignFormData hasField
    cases pi <;> simp [FormPart.fieldName, h]

/-- C5 witness: a padded name is sent trimmed; a whitespace-only name
yields no product_name part. -/
theorem C5_product_name_field_witness :
    getTextField (campaignFormData "u" " My Phone " none false 2) "product_name"
        = some (jsTrim " My Phone ") ∧
    hasField (campaignFormData "u" "   " none false 2) "product_name" = false :=
  ⟨(C5_product_name_field "u" " My Phone " none false 2).1 (by decide),
   (C5_product_name_field "u" "   " none false 2).2 (by decide)⟩

/-- C4 counterexample: entering "7" in the variation-count field parses to
7 (truthy, so the fallback does not fire), and a submit in that state
sends num_variations 7, outside the claimed range with max 3. -/
theorem C4_num_variations_cex :
    numVariationsOnChange "7" = 7 ∧
    getTextField (campaignFormData "u" "" none true (numVariationsOnChange "7"))
        "num_variations" = some "7" ∧
    ¬ numVariationsOnChange "7" ≤ numVariationsFieldMax := by
  refine ⟨by decide, by decide, by decide⟩

/-- C4 (amended): every change to the variation-count field yields
parseInt of the entered text, falling back to 2 when the text is
unparsable or parses to 0, so the state is never 0; the input declares
min 2 and max 3, but the state is not clamped to that range, and the
num_variations value included in a create-campaign request is the decimal
rendering of whatever the current state is. -/
theorem C4_num_variations (entered : String) (state : Int) (url productName : String)
    (pi : Option JsFile) (ab : Bool) :
    (jsParseInt entered = none → numVariationsOnChange entered = 2) ∧
    (jsParseInt entered = some 0 → numVariationsOnChange entered = 2) ∧
    (∀ n, jsParseInt entered = some n → n ≠ 0 → numVariationsOnChange entered = n) ∧
    numVariationsOnChange entered ≠ 0 ∧
    numVariationsFieldMin = 2 ∧
    numVariationsFieldMax = 3 ∧
    getTextField (campaignFormData url productName pi ab state) "num_variations"
      = some (toString state) := by
  refine ⟨?_, ?_, ?_, ?_, rfl, rfl, getTextField_num_variations url productName pi ab state⟩
  · intro h
    simp [numVariationsOnChange, h]
  · intro h
    simp [numVariationsOnChange, h]
  · intro n h hn
    simp [numVariationsOnChange, h, hn]
  · unfold numVariationsOnChange
    cases h : jsParseInt entered with
    | none => decide
    | some n =>
      by_cases hn : n = 0
      · simp [hn]
      · simp [hn]

/-- C4 witness: the amended statement evaluated where the entered text is
unparsable (state falls back to 2) and the submitted state is 2. -/
theorem C4_num_variations_witness :
    jsParseInt "abc" = none ∧
    numVariationsOnChange "abc" = 2 ∧
    getTextField (campaignFormData "u" "" none true 2) "num_variations"
        = some (toString (2 : Int)) :=
  ⟨by decide,
   (C4_num_variations "abc" 2 "u" "" none true).1 (by decide),
   (C4_num_variations "abc" 2 "u" "" none true).2.2.2.2.2.2⟩

/-- C7: after a confirmed, successful delete of campaign c, c is absent
from the campaigns list, every other summary is kept (and the new list is
a sublist of the old, so the kept summaries are unchanged and in order),
the active campaign is cleared exactly when it had id c, and the handler
returns true; a failed delete call or a declined confirmation leaves the
state unchanged and returns false. -/
theorem C7_delete_campaign (c : Int) (s : DashboardState) :
    (∀ x ∈ (handleDeleteCampaign true true c s).1.campaigns, x.id ≠ c) ∧
    (∀ x ∈ s.campaigns, x.id ≠ c → x ∈ (handleDeleteCampaign true true c s).1.campaigns) ∧
    List.Sublist (handleDeleteCampaign true true c s).1.campaigns s.campaigns ∧
    (∀ d, s.activeCampaign = some d → d.id = c →
      (handleDeleteCampaign true true c s).1.activeCampaign = none) ∧
    (activeIdEquals s.activeCampaign c = false →
      (handleDeleteCampaign true true c s).1.activeCampaign = s.activeCampaign) ∧
    (handleDeleteCampaign true true c s).2 = true ∧
    handleDeleteCampaign true false c s = (s, false) ∧
    (∀ b, handleDeleteCampaign false b c s = (s, false)) := by
  have hred : handleDeleteCampaign true true c s
      = ({ campaigns := List.filter (fun x => x.id != c) s.campaigns,
           activeCampaign := if activeIdEquals s.activeCampaign c then none
                             else s.activeCampaign }, true) := rfl
  refine ⟨?_, ?_, ?_, ?_, ?_, rfl, rfl, fun b => rfl⟩
  · intro x hx
    rw [hred] at hx
    have hx2 := (List.mem_filter.mp hx).2
    simpa [bne_iff_ne] using hx2
  · intro x hx hne
    rw [hred]
    exact List.mem_filter.mpr ⟨hx, by simpa [bne_iff_ne] using hne⟩
  · rw [hred]
    exact List.filter_sublist _
  · intro d hd hid
    rw [hred]
    simp [activeIdEquals, hd, hid]
  · intro hne
    rw [hred]
    simp [hne]

/-- C7 witness: deleting campaign 1 from the sample dashboard clears the
active campaign, keeps summary 2, and returns true; the failed path
leaves the sample state unchanged with result false. -/
theorem C7_delete_campaign_witness :
    sampleDashboard.activeCampaign = some sampleCampaign ∧
    sampleCampaign.id = 1 ∧
    (handleDeleteCampaign true true 1 sampleDashboard).1.activeCampaign = none ∧
    sampleSummaryB ∈ (handleDeleteCampaign true true 1 sampleDashboard).1.campaigns ∧
    (handleDeleteCampaign true true 1 sampleDashboard).2 = true ∧
    handleDeleteCampaign true false 1 sampleDashboard = (sampleDashboard, false) :=
  have h := C7_delete_campaign 1 sampleDashboard
  ⟨rfl, rfl, h.2.2.2.1 sampleCampaign rfl rfl,
   h.2.1 sampleSummaryB (by simp [sampleDashboard]) (by decide),
   h.2.2.2.2.2.1, h.2.2.2.2.2.2.1⟩

/-- C8: the dashboard stats are pure functions of the loaded data:
totalCampaigns is the length of the campaigns list, lastRun is the
created_at of the first summary (none when the list is empty, with
formatTime rendering none as "No campaigns yet"), the first summary being
the most recently created one whenever the list is ordered most recent
first, and totalImages is the image count of the active campaign, or 0
when no campaign is active. -/
theorem C8_dashboard_stats (campaigns : List CampaignSummary)
    (active : Option CampaignDetails) (localeTimeOf : String → Option String) :
    (dashboardStats campaigns active).totalCampaigns = campaigns.length ∧
    (dashboardStats campaigns active).lastRun
        = campaigns.head?.map (fun c => c.created_at) ∧
    (campaigns = [] → (dashboardStats campaigns active).lastRun = none) ∧
    formatTime localeTimeOf none = "No campaigns yet" ∧
    (∀ d, active = some d →
      (dashboardStats campaigns active).totalImages = d.images.length) ∧
    (active = none → (dashboardStats campaigns active).totalImages = 0) ∧
    (List.Sorted (fun a b : CampaignSummary => b.created_at ≤ a.created_at) campaigns →
      ∀ hd x, campaigns.head? = some hd → x ∈ campaigns →
        x.created_at ≤ hd.created_at) := by
  refine ⟨rfl, rfl, ?_, rfl, ?_, ?_, ?_⟩
  · rintro rfl; rfl
  · rintro d rfl; rfl
  · rintro rfl; rfl
  · intro hs hd x hh hx
    cases campaigns with
    | nil => simp at hh
    | cons a t =>
      have ha : a = hd := by simpa using hh
      subst ha
      rcases List.mem_cons.mp hx with rfl | hxt
      · exact le_refl _
      · exact (List.sorted_cons.mp hs).1 x hxt

/-- C8 witness: stats of the sample dashboard data, the empty rendering,
and the head of the most-recent-first sample list bounding the older
entry. -/
theorem C8_dashboard_stats_witness :
    (dashboardStats [sampleSummaryA, sampleSummaryB] (some sampleCampaign)).totalCampaigns
        = 2 ∧
    (dashboardStats [sampleSummaryA, sampleSummaryB] (some sampleCampaign)).totalImages
        = sampleCampaign.images.length ∧
    formatTime (fun _ => none) none = "No campaigns yet" ∧
    sampleSummaryB.created_at ≤ sampleSummaryA.created_at := by
  have h := C8_dashboard_stats [sampleSummaryA, sampleSummaryB] (some sampleCampaign)
      (fun _ => none)
  refine ⟨h.1, h.2.2.2.2.1 sampleCampaign rfl, h.2.2.2.1, ?_⟩
  refine h.2.2.2.2.2.2 ?_ sampleSummaryA sampleSummaryB rfl (by simp)
  have hle : ("2024-01-01T09:00:00" : String) ≤ "2024-01-02T10:00:00" :=
    String.le_iff_toList_le.mpr (by decide)
  simp only [List.sorted_cons, List.mem_cons, List.mem_singleton, List.not_mem_nil,
    or_false, forall_eq, List.sorted_singleton, and_true, sampleSummaryA, sampleSummaryB]
  exact ⟨hle, fun b hb => hb.elim, List.sorted_nil⟩

/-- C9: findImage only ever returns an image of the requested platform
whose variation_number, with a nullish value read as 0, equals the
requested variation; and an A/B card is labeled "Main" exactly when its
variation_number, with a nullish value read as 0, equals 0. -/
theorem C9_find_image (ac : Option CampaignDetails) (p : String) (v : Int)
    (img : GeneratedImage) :
    (findImage ac p v = some img →
      img.platform = p ∧ img.variation_number.getD 0 = v) ∧
    (variationLabel img = "Main" ↔ img.variation_number.getD 0 = 0) := by
  constructor
  · intro hf
    rcases ac with _ | c
    · simp [findImage] at hf
    · simp only [findImage] at hf
      have hp := List.find?_some hf
      simpa [Bool.and_eq_true, beq_iff_eq] using hp
  · have hiff : isMainImage img = true ↔ img.variation_number.getD 0 = 0 := by
      simp [isMainImage]
    by_cases hm : isMainImage img = true
    · simp [variationLabel, hm, hiff.mp hm]
    · have hne : ¬ img.variation_number.getD 0 = 0 := fun hh => hm (hiff.mpr hh)
      simp only [variationLabel, hm, if_false, Bool.false_eq_true, if_neg]
      constructor
      · intro hcontra
        have hlen := congrArg String.length hcontra
        rw [String.length_append] at hlen
        have h10 : "Variation ".length = 10 := rfl
        have h4 : "Main".length = 4 := rfl
        rw [h10, h4] at hlen
        omega
      · intro hh
        exact absurd hh hne

/-- C9 witness: on the sample campaign, findImage returns the variation-1
image for Instagram, and the two sample images are labeled through the
main test accordingly. -/
theorem C9_find_image_witness :
    findImage (some sampleCampaign) "Instagram" 1 = some sampleImage1 ∧
    (sampleImage1.platform = "Instagram" ∧ sampleImage1.variation_number.getD 0 = 1) ∧
    (variationLabel sampleImage0 = "Main" ↔ sampleImage0.variation_number.getD 0 = 0) :=
  ⟨by decide,
   (C9_find_image (some sampleCampaign) "Instagram" 1 sampleImage1).1 (by decide),
   (C9_find_image (some sampleCampaign) "Instagram" 1 sampleImage0).2⟩
